import Mathlib

/-!
Verification development for the static personal-website repository:
a browser-side navigation/content controller (`index.js`) and a Node
dev-sync script (`dev.mjs`).  The JavaScript is shallowly embedded:
the DOM, `fetch`, `history`, the filesystem and the child process are
modelled as explicit state records and oracle inputs; every function
below is translated line by line from the corresponding source
function and keeps its name.
-/

/-- A navigation entry of the manifest: `\x7b title, uri \x7d` (src/index.js
`NavItem` typedef). -/
structure NavItem where
  title : String
  uri : String
  deriving Repr, DecidableEq

/-- Model of `NavData`: a mapping from string key to `NavItem`.  A JS object is
modelled as an association list, preserving insertion order (which
`Object.keys` / `Object.entries` iterate in). -/
abbrev NavData := List (String × NavItem)

/-- The mutable module-level `state` object of src/index.js. -/
structure AppState where
  navData : NavData
  activeId : Option String
  currentHtml : String
  currentTitle : String
  deriving Repr, DecidableEq

/-- The part of the browser world the controller touches: the two
required containers, the content iframe, the rendered nav items (data-id
together with whether the element carries the active class), the URL
query parameter `id`, the history entries pushed, and how many page
fetches were issued. -/
structure Dom where
  navContainerPresent : Bool
  mainContentPresent : Bool
  hasIframe : Bool
  iframeSrcdoc : Option String
  navItems : List (String × Bool)
  urlId : Option String
  historyPushes : List String
  fetchCount : Nat
  deriving Repr, DecidableEq

/-- Outcome of one page fetch as observed by the `try` block of
`loadContentById`: `ok html` means the response resolved with an OK
status and its text; `failure msg` covers a network rejection and a
non-OK status alike (a non-OK status is turned into a thrown `Error`
and lands in the same `catch`). -/
inductive FetchResult where
  | ok (html : String)
  | failure (msg : String)
  deriving Repr, DecidableEq

/-- JS truthiness of a `string | null` value: `null` and the empty
string are falsy. -/
def jsTruthy : Option String → Bool
  | none => false
  | some s => !(s == "")

/-- Embedding of `getIdFromUrl`: reads the `id` query parameter of the current URL
(`URLSearchParams.get` returns `null` when absent). -/
def getIdFromUrl (d : Dom) : Option String :=
  d.urlId

/-- Embedding of `updateUrlId`: sets the `id` query parameter and pushes a history
entry carrying the id. -/
def updateUrlId (id : String) (d : Dom) : Dom :=
  { d with urlId := some id, historyPushes := d.historyPushes ++ [id] }

/-- Embedding of `renderNav`: clears the nav container and repopulates it with one
element per manifest entry, in manifest order, each carrying its key as
`data-id` and no active class yet. -/
def renderNav (navData : NavData) (d : Dom) : Dom :=
  { d with navItems := navData.map (fun p => (p.1, false)) }

/-- Embedding of `updateNavActiveState`: every rendered nav item receives the active
class exactly when its `data-id` equals the given id. -/
def updateNavActiveState (activeId : String) (d : Dom) : Dom :=
  { d with navItems := d.navItems.map (fun p => (p.1, p.1 == activeId)) }

/-- Embedding of `resolveUri`: absolute http/https URIs pass through; anything else
is resolved against the document URL (`new URL(uri, location.href)`,
supplied here as the oracle `newUrl`). -/
def resolveUri (newUrl : String → String) (uri : String) : String :=
  if uri.startsWith "http://" || uri.startsWith "https://" then uri
  else newUrl uri

/-- The inline error marker rendered by `loadContentById` on a failed
page fetch. -/
def errorIndicator : String := "⚠️ 加载失败"

/-- The full srcdoc assigned on a failed page fetch (template literal
in the `catch` of `loadContentById`). -/
def errorSrcdoc (msg : String) : String :=
  "<body style=\"font-family: sans-serif; padding: 2rem; color: #666;\">\n      <p>⚠️ 加载失败: "
    ++ msg ++ "</p>\n    </body>"

/-- Embedding of `loadContentById`: looks the id up in `state.navData` (early return
when absent), requires the main-content container (its absence throws
before any mutation, leaving state and DOM as they were), ensures the
iframe exists, fetches the page (outcome supplied by the oracle `f`),
on success stores the html in the iframe and caches it with the derived
title, on failure renders the inline error srcdoc and clears the cache;
in either case it then sets `activeId`, refreshes the active highlight
and pushes the id into the URL.  One subtlety of the source: for a name
inherited from `Object.prototype` (`constructor`, `toString`, …) the
property access `state.navData[id]` is truthy, so the `!item` guard is
passed — but `item.uri` is then `undefined` and `resolveUri` throws a
TypeError before the iframe is touched or any state is written, so the
run ends with state and DOM exactly as they were; that outcome
coincides with the `none` branch below, which therefore covers own
keys and inherited names alike. -/
def loadContentById (id : String) (f : FetchResult) (s : AppState) (d : Dom) :
    AppState × Dom :=
  match s.navData.lookup id with
  | none => (s, d)
  | some _item =>
    if !d.mainContentPresent then (s, d)
    else
      let d1 : Dom := { d with hasIframe := true, fetchCount := d.fetchCount + 1 }
      let sd : AppState × Dom :=
        match f with
        | .ok html =>
          ({ s with currentHtml := html, currentTitle := id ++ ".html" },
           { d1 with iframeSrcdoc := some html })
        | .failure msg =>
          ({ s with currentHtml := "", currentTitle := "" },
           { d1 with iframeSrcdoc := some (errorSrcdoc msg) })
      ({ sd.1 with activeId := some id },
       updateUrlId id (updateNavActiveState id sd.2))

/-- Embedding of `handleNavClick`: a click or keyboard selection; returns immediately
when the id is already active, otherwise delegates to
`loadContentById`. -/
def handleNavClick (id : String) (f : FetchResult) (s : AppState) (d : Dom) :
    AppState × Dom :=
  if s.activeId = some id then (s, d)
  else loadContentById id f s d

/-- The `popstate` listener registered by `init`: the id comes from the
history entry state if truthy, else from the location; the load runs
only when the id is truthy and `state.navData[id]` is truthy.  For a
name inherited from `Object.prototype` that access is truthy and
`loadContentById` is entered, but it throws on the undefined `uri`
before mutating anything, which is exactly what the own-key guard
below yields, so the embedding is extensionally faithful. -/
def handlePopstate (eventId locationId : Option String) (f : FetchResult)
    (s : AppState) (d : Dom) : AppState × Dom :=
  let id : Option String := if jsTruthy eventId then eventId else locationId
  match id with
  | none => (s, d)
  | some i =>
    if i ≠ "" ∧ (s.navData.lookup i).isSome then loadContentById i f s d
    else (s, d)

/-- The property names every plain JSON object inherits from
`Object.prototype`: accessing `navData[u]` at one of these yields a
function (or, for `__proto__`, an object), a truthy value, even though
`u` is not an own key of the manifest. -/
def protoProps : List String :=
  ["constructor", "hasOwnProperty", "isPrototypeOf", "propertyIsEnumerable",
   "toLocaleString", "toString", "valueOf", "__proto__", "__defineGetter__",
   "__defineSetter__", "__lookupGetter__", "__lookupSetter__"]

/-- Truthiness of the JS property access `navData[u]` on a parsed JSON
object: truthy exactly for an own key of the manifest or a property
inherited from `Object.prototype`. -/
def propAccessTruthy (nav : NavData) (u : String) : Bool :=
  (nav.lookup u).isSome || protoProps.contains u

/-- Embedding of `init`: stores the loaded manifest in `state.navData`, renders the
nav (an absent nav container throws there and is swallowed by the
enclosing `catch`, leaving `activeId` null), and when the manifest is
nonempty computes `initialId` from `(urlId && navData[urlId]) ? urlId :
ids[0]` — note the condition is a truthy property access, so a name
inherited from `Object.prototype` (e.g. `?id=constructor`) is chosen as
`initialId` even though it is not a manifest key; the subsequent
`loadContentById` then throws on its undefined `uri` before mutating
anything and `activeId` stays null, with no fallback to the first
key. -/
def init (navResult : NavData) (f : FetchResult) (d : Dom) : AppState × Dom :=
  let s : AppState :=
    { navData := navResult, activeId := none, currentHtml := "", currentTitle := "" }
  if !d.navContainerPresent then (s, d)
  else
    let d := renderNav navResult d
    match navResult with
    | [] => (s, d)
    | (k0, _) :: _ =>
      let urlId := getIdFromUrl d
      let initialId :=
        match urlId with
        | none => k0
        | some u => if u ≠ "" ∧ propAccessTruthy navResult u then u else k0
      loadContentById initialId f s d

/-- The operations that can reach the controller after initialisation:
a nav click / keyboard selection, or a `popstate` event. -/
inductive Op where
  | navClick (id : String) (f : FetchResult)
  | popstate (eventId locationId : Option String) (f : FetchResult)

/-- One controller step. -/
def step (op : Op) (sd : AppState × Dom) : AppState × Dom :=
  match op with
  | .navClick id f => handleNavClick id f sd.1 sd.2
  | .popstate e l f => handlePopstate e l f sd.1 sd.2

/-- Run a sequence of post-initialisation operations. -/
def runOps (ops : List Op) (sd : AppState × Dom) : AppState × Dom :=
  ops.foldl (fun sd op => step op sd) sd

/-- The `activeId` invariant: null or a key of the current manifest. -/
def activeIdOk (s : AppState) : Prop :=
  ∀ i, s.activeId = some i → (s.navData.lookup i).isSome

/-- Outcome of one JSON fetch in `loadNavData`: OK status with parsed
data, OK status but `response.json()` rejects, non-OK status, or a
network rejection. -/
inductive FetchJson where
  | ok (data : NavData)
  | okBadJson
  | notOk
  | networkError
  deriving Repr, DecidableEq

/-- The remote section of `loadNavData` before its `catch`: the fetch
rejection, the non-OK status (turned into a thrown `Error`) and a JSON
parse rejection all throw; an OK parsed response returns the data. -/
def remoteNavFetch : FetchJson → Except String NavData
  | .ok data => .ok data
  | .okBadJson => .error "json parse failure"
  | .notOk => .error "HTTP status not ok"
  | .networkError => .error "network error"

/-- Embedding of `loadNavData`: on a recognized dev hostname, try the local
`nav_data.json` first — only an OK, parseable response is used, every
other outcome falls through; then fetch the remote URL, and convert any
failure there into the empty mapping after logging.  Total by
construction: no outcome throws to the caller. -/
def loadNavData (isDev : Bool) (localRes remoteRes : FetchJson) : NavData :=
  if isDev then
    match localRes with
    | .ok data => data
    | _ =>
      match remoteNavFetch remoteRes with
      | .ok data => data
      | .error _ => []
  else
    match remoteNavFetch remoteRes with
    | .ok data => data
    | .error _ => []

/-! Embedding of the dev sync script (dev.mjs). -/

/-- Outcome of one `fetchText` call: the body on an OK response, or the
message of the rejection / the thrown non-OK `Error`. -/
inductive FetchTextResult where
  | ok (body : String)
  | error (msg : String)
  deriving Repr, DecidableEq

/-- Local disk as the script sees it: the `nav_data.json` file content
(none if absent) and the `pages` directory (none if absent, otherwise
its files as name/content pairs in creation order). -/
structure FsState where
  navDataFile : Option String
  pagesDir : Option (List (String × String))
  deriving Repr, DecidableEq

/-- Embedding of `syncResources`: fetch the manifest (a failure propagates — first
component returned unchanged, second carries the error), write it to
`nav_data.json`, parse it (a parse failure propagates after the file
was written), recreate the `pages` directory from scratch, then fetch
every entry sequentially, writing `<key>.html` on success and logging
and skipping the entry on failure.  Returns the resulting disk state
and the error that escaped, if any. -/
def syncResources (manifestRes : FetchTextResult) (parse : String → Option NavData)
    (pageFetch : String → FetchTextResult) (fs : FsState) :
    FsState × Option String :=
  match manifestRes with
  | .error e => (fs, some e)
  | .ok navDataText =>
    let fs1 : FsState := { fs with navDataFile := some navDataText }
    match parse navDataText with
    | none => (fs1, some "JSON.parse failure")
    | some navData =>
      let files : List (String × String) :=
        navData.foldl (fun acc e =>
          match pageFetch e.2.uri with
          | .ok content => acc ++ [(e.1 ++ ".html", content)]
          | .error _ => acc) []
      ({ fs1 with pagesDir := some files }, none)

/-- Outcome of `startServer`: the `spawn` errored (promise rejected), or
the subprocess ran and exited with the given code. -/
inductive ServerResult where
  | spawnError (msg : String)
  | exited (code : Int)
  deriving Repr, DecidableEq

/-- Observable outcome of one run of the script. -/
structure RunResult where
  fs : FsState
  serverSpawned : Bool
  exitCode : Nat
  deriving Repr, DecidableEq

/-- Embedding of `main` of dev.mjs (Lean reserves the name `main` for executables,
so the embedding calls it `devMain`): `--sync` in the argument list selects sync-only,
`--serve` selects serve-only; unless serve-only, sync the resources (a
thrown error is caught, logged and turns into `process.exit(1)` with
the server never spawned); unless sync-only, spawn the static file
server (a spawn error rejects and is caught the same way; a server exit
of any code resolves and the run ends with exit code 0). -/
def devMain (args : List String) (manifestRes : FetchTextResult)
    (parse : String → Option NavData) (pageFetch : String → FetchTextResult)
    (server : ServerResult) (fs : FsState) : RunResult :=
  let syncOnly := args.contains "--sync"
  let serveOnly := args.contains "--serve"
  let syncOut : FsState × Option String :=
    if !serveOnly then syncResources manifestRes parse pageFetch fs
    else (fs, none)
  match syncOut.2 with
  | some _ => { fs := syncOut.1, serverSpawned := false, exitCode := 1 }
  | none =>
    if !syncOnly then
      match server with
      | .spawnError _ => { fs := syncOut.1, serverSpawned := true, exitCode := 1 }
      | .exited _ => { fs := syncOut.1, serverSpawned := true, exitCode := 0 }
    else { fs := syncOut.1, serverSpawned := false, exitCode := 0 }

/-! Helper lemmas about the selection routine. -/

/-- An unknown key makes `loadContentById` an early-returning no-op. -/
theorem loadContentById_unknown (id : String) (f : FetchResult) (s : AppState) (d : Dom)
    (h : s.navData.lookup id = none) :
    loadContentById id f s d = (s, d) := by
  unfold loadContentById
  rw [h]

/-- A missing main-content container aborts `loadContentById` before any
mutation. -/
theorem loadContentById_noMain (id : String) (f : FetchResult) (s : AppState) (d : Dom)
    (h : d.mainContentPresent = false) :
    loadContentById id f s d = (s, d) := by
  unfold loadContentById
  cases hl : s.navData.lookup id with
  | none => rfl
  | some item => simp [h]

/-- `loadContentById` never changes `navData`. -/
theorem loadContentById_navData (id : String) (f : FetchResult) (s : AppState) (d : Dom) :
    (loadContentById id f s d).1.navData = s.navData := by
  unfold loadContentById
  cases hl : s.navData.lookup id with
  | none => rfl
  | some item =>
    cases hm : d.mainContentPresent with
    | false => simp [hm]
    | true => cases f <;> simp [hm, updateUrlId, updateNavActiveState]

/-- On a known key with the container present, `loadContentById` sets
`activeId` to that key. -/
theorem loadContentById_activeId (id : String) (f : FetchResult) (s : AppState) (d : Dom)
    (hmem : (s.navData.lookup id).isSome = true) (hdom : d.mainContentPresent = true) :
    (loadContentById id f s d).1.activeId = some id := by
  obtain ⟨item, hl⟩ := Option.isSome_iff_exists.mp hmem
  unfold loadContentById
  rw [hl]
  cases f <;> simp [hdom, updateUrlId, updateNavActiveState]

/-- On a known key with the container present, the active class ends up
exactly on the items whose data-id equals the key. -/
theorem loadContentById_navItems (id : String) (f : FetchResult) (s : AppState) (d : Dom)
    (hmem : (s.navData.lookup id).isSome = true) (hdom : d.mainContentPresent = true) :
    (loadContentById id f s d).2.navItems = d.navItems.map (fun p => (p.1, p.1 == id)) := by
  obtain ⟨item, hl⟩ := Option.isSome_iff_exists.mp hmem
  unfold loadContentById
  rw [hl]
  cases f <;> simp [hdom, updateUrlId, updateNavActiveState]

/-- On a known key with the container present, the URL `id` parameter
becomes the key. -/
theorem loadContentById_urlId (id : String) (f : FetchResult) (s : AppState) (d : Dom)
    (hmem : (s.navData.lookup id).isSome = true) (hdom : d.mainContentPresent = true) :
    (loadContentById id f s d).2.urlId = some id := by
  obtain ⟨item, hl⟩ := Option.isSome_iff_exists.mp hmem
  unfold loadContentById
  rw [hl]
  cases f <;> simp [hdom, updateUrlId, updateNavActiveState]

/-- On a known key with the container present, exactly one history entry
is pushed and it carries the key. -/
theorem loadContentById_pushes (id : String) (f : FetchResult) (s : AppState) (d : Dom)
    (hmem : (s.navData.lookup id).isSome = true) (hdom : d.mainContentPresent = true) :
    (loadContentById id f s d).2.historyPushes = d.historyPushes ++ [id] := by
  obtain ⟨item, hl⟩ := Option.isSome_iff_exists.mp hmem
  unfold loadContentById
  rw [hl]
  cases f <;> simp [hdom, updateUrlId, updateNavActiveState]

/-- `loadContentById` preserves the `activeId` invariant. -/
theorem loadContentById_activeIdOk (id : String) (f : FetchResult) (s : AppState) (d : Dom)
    (hs : activeIdOk s) : activeIdOk (loadContentById id f s d).1 := by
  intro i hi
  rw [loadContentById_navData]
  cases hl : s.navData.lookup id with
  | none =>
    rw [loadContentById_unknown id f s d hl] at hi
    exact hs i hi
  | some item =>
    cases hm : d.mainContentPresent with
    | false =>
      rw [loadContentById_noMain id f s d hm] at hi
      exact hs i hi
    | true =>
      rw [loadContentById_activeId id f s d (by rw [hl]; rfl) hm] at hi
      cases hi
      rw [hl]; rfl

/-- `handleNavClick` preserves the `activeId` invariant. -/
theorem handleNavClick_activeIdOk (id : String) (f : FetchResult) (s : AppState) (d : Dom)
    (hs : activeIdOk s) : activeIdOk (handleNavClick id f s d).1 := by
  unfold handleNavClick
  by_cases h : s.activeId = some id
  · simpa [h] using hs
  · simpa [h] using loadContentById_activeIdOk id f s d hs

/-- `handlePopstate` preserves the `activeId` invariant. -/
theorem handlePopstate_activeIdOk (e l : Option String) (f : FetchResult)
    (s : AppState) (d : Dom) (hs : activeIdOk s) :
    activeIdOk (handlePopstate e l f s d).1 := by
  unfold handlePopstate
  cases hid : (if jsTruthy e then e else l) with
  | none => exact hs
  | some i =>
    dsimp only
    by_cases hcond : ¬i = "" ∧ (s.navData.lookup i).isSome = true
    · rw [if_pos hcond]
      exact loadContentById_activeIdOk i f s d hs
    · rw [if_neg hcond]
      exact hs

/-- Every post-initialisation step preserves the `activeId` invariant. -/
theorem step_activeIdOk (op : Op) (sd : AppState × Dom) (hs : activeIdOk sd.1) :
    activeIdOk (step op sd).1 := by
  cases op with
  | navClick id f => exact handleNavClick_activeIdOk id f sd.1 sd.2 hs
  | popstate e l f => exact handlePopstate_activeIdOk e l f sd.1 sd.2 hs

/-- Any sequence of steps preserves the `activeId` invariant. -/
theorem runOps_activeIdOk (ops : List Op) (sd : AppState × Dom) (hs : activeIdOk sd.1) :
    activeIdOk (runOps ops sd).1 := by
  induction ops generalizing sd with
  | nil => exact hs
  | cons op rest ih => exact ih (step op sd) (step_activeIdOk op sd hs)

/-- `init` establishes the `activeId` invariant. -/
theorem init_activeIdOk (nav : NavData) (f : FetchResult) (d : Dom) :
    activeIdOk (init nav f d).1 := by
  unfold init
  cases hc : d.navContainerPresent with
  | false => intro i hi; simp at hi
  | true =>
    simp only [hc, Bool.not_true, Bool.false_eq_true, if_false]
    cases nav with
    | nil => intro i hi; simp at hi
    | cons e rest =>
      apply loadContentById_activeIdOk
      intro i hi
      simp at hi

/-! Claim theorems. -/

/-- C1: along every run (initialisation followed by any sequence of nav
clicks and popstate events) `AppState.activeId` is null or a key of
`AppState.navData`; and the selection routine invoked with a key not in
`navData` leaves `activeId` (indeed all state) unchanged. -/
theorem c1_activeId_always_known_key :
    (∀ (nav : NavData) (f : FetchResult) (d : Dom) (ops : List Op),
        activeIdOk (runOps ops (init nav f d)).1) ∧
    (∀ (s : AppState) (d : Dom) (id : String) (g : FetchResult),
        s.navData.lookup id = none →
        (loadContentById id g s d).1.activeId = s.activeId) := by
  constructor
  · intro nav f d ops
    exact runOps_activeIdOk ops (init nav f d) (init_activeIdOk nav f d)
  · intro s d id g h
    rw [loadContentById_unknown id g s d h]

def demoNav : NavData := [("a", ⟨"A", "a.html"⟩), ("b", ⟨"B", "b.html"⟩)]

def demoState : AppState :=
  { navData := demoNav, activeId := some "a", currentHtml := "h", currentTitle := "a.html" }

def demoDom : Dom :=
  ⟨true, true, true, some "h", [("a", true), ("b", false)], some "a", ["a"], 1⟩

/-- C1 witness: selecting the unknown key `"zzz"` in a concrete state
leaves `activeId` untouched. -/
theorem c1_witness :
    (loadContentById "zzz" (.ok "x") demoState demoDom).1.activeId = demoState.activeId :=
  c1_activeId_always_known_key.2 demoState demoDom "zzz" (.ok "x") (by decide)

/-- C2: for a key of `navData` (with the main container present, so the
fetch actually runs), a failed page fetch clears `currentHtml` and
`currentTitle` and renders the inline error srcdoc, which contains the
error indicator. -/
theorem c2_failed_fetch_clears_cache_and_shows_error
    (s : AppState) (d : Dom) (id msg : String)
    (hmem : (s.navData.lookup id).isSome = true)
    (hdom : d.mainContentPresent = true) :
    (loadContentById id (.failure msg) s d).1.currentHtml = "" ∧
    (loadContentById id (.failure msg) s d).1.currentTitle = "" ∧
    (loadContentById id (.failure msg) s d).2.iframeSrcdoc = some (errorSrcdoc msg) ∧
    ∃ pre post, errorSrcdoc msg = pre ++ (errorIndicator ++ post) := by
  obtain ⟨item, hl⟩ := Option.isSome_iff_exists.mp hmem
  unfold loadContentById
  rw [hl]
  refine ⟨by simp [hdom, updateUrlId, updateNavActiveState],
          by simp [hdom, updateUrlId, updateNavActiveState],
          by simp [hdom, updateUrlId, updateNavActiveState],
          "<body style=\"font-family: sans-serif; padding: 2rem; color: #666;\">\n      <p>",
          ": " ++ msg ++ "</p>\n    </body>", ?_⟩
  unfold errorSrcdoc errorIndicator
  cases msg with
  | mk data => rfl

/-- C2 witness: a failed fetch of the known key `"b"` in a concrete
state clears the cache and renders the error srcdoc. -/
theorem c2_witness :
    (loadContentById "b" (.failure "boom") demoState demoDom).1.currentHtml = "" ∧
    (loadContentById "b" (.failure "boom") demoState demoDom).1.currentTitle = "" ∧
    (loadContentById "b" (.failure "boom") demoState demoDom).2.iframeSrcdoc
      = some (errorSrcdoc "boom") := by
  have h := c2_failed_fetch_clears_cache_and_shows_error demoState demoDom "b" "boom"
    (by decide) rfl
  exact ⟨h.1, h.2.1, h.2.2.1⟩

/-- C3: clicking the already-active key is a no-op — the state/DOM pair
is returned unchanged, so in particular no fetch is counted and no
history entry is pushed. -/
theorem c3_reselect_is_noop (s : AppState) (d : Dom) (id : String) (f : FetchResult)
    (h : s.activeId = some id) :
    handleNavClick id f s d = (s, d) ∧
    (handleNavClick id f s d).2.fetchCount = d.fetchCount ∧
    (handleNavClick id f s d).2.historyPushes = d.historyPushes := by
  unfold handleNavClick
  simp [h]

/-- C3 witness: re-selecting the active key `"a"` in a concrete state
changes nothing. -/
theorem c3_witness :
    handleNavClick "a" (.ok "x") demoState demoDom = (demoState, demoDom) ∧
    (handleNavClick "a" (.ok "x") demoState demoDom).2.fetchCount = demoDom.fetchCount ∧
    (handleNavClick "a" (.ok "x") demoState demoDom).2.historyPushes = demoDom.historyPushes :=
  c3_reselect_is_noop demoState demoDom "a" (.ok "x") rfl

/-- C4: selecting any key of `navData` (containers present), whether the
page fetch succeeds or fails, sets `activeId` to the key, moves the
active class to exactly the items carrying that key, sets the URL `id`
parameter to the key and pushes one history entry for it. -/
theorem c4_selection_updates_state_url_highlight
    (s : AppState) (d : Dom) (id : String) (f : FetchResult)
    (hmem : (s.navData.lookup id).isSome = true)
    (hdom : d.mainContentPresent = true) :
    (loadContentById id f s d).1.activeId = some id ∧
    (loadContentById id f s d).2.navItems = d.navItems.map (fun p => (p.1, p.1 == id)) ∧
    (loadContentById id f s d).2.urlId = some id ∧
    (loadContentById id f s d).2.historyPushes = d.historyPushes ++ [id] :=
  ⟨loadContentById_activeId id f s d hmem hdom,
   loadContentById_navItems id f s d hmem hdom,
   loadContentById_urlId id f s d hmem hdom,
   loadContentById_pushes id f s d hmem hdom⟩

/-- C4 witness: selecting the key `"b"` with a failing fetch in a
concrete state still activates, highlights and pushes `"b"`. -/
theorem c4_witness :
    (loadContentById "b" (.failure "down") demoState demoDom).1.activeId = some "b" ∧
    (loadContentById "b" (.failure "down") demoState demoDom).2.navItems
      = demoDom.navItems.map (fun p => (p.1, p.1 == "b")) ∧
    (loadContentById "b" (.failure "down") demoState demoDom).2.urlId = some "b" ∧
    (loadContentById "b" (.failure "down") demoState demoDom).2.historyPushes
      = demoDom.historyPushes ++ ["b"] :=
  c4_selection_updates_state_url_highlight demoState demoDom "b" (.failure "down")
    (by decide) rfl

/-- C5: `loadNavData` is a total function of the fetch outcomes (it
never throws to its caller), and whenever the remote fetch fails
(rejection, non-OK status or parse failure) while no successful local
result short-circuits it, the result is the empty mapping. -/
theorem c5_loadNavData_empty_on_remote_failure
    (isDev : Bool) (localRes remoteRes : FetchJson)
    (hremote : ∀ data, remoteRes ≠ .ok data)
    (hlocal : isDev = true → ∀ data, localRes ≠ .ok data) :
    loadNavData isDev localRes remoteRes = [] := by
  unfold loadNavData
  cases isDev with
  | false =>
    cases remoteRes with
    | ok data => exact absurd rfl (hremote data)
    | okBadJson => rfl
    | notOk => rfl
    | networkError => rfl
  | true =>
    cases localRes with
    | ok data => exact absurd rfl (hlocal rfl data)
    | okBadJson => cases remoteRes with
      | ok data => exact absurd rfl (hremote data)
      | okBadJson => rfl
      | notOk => rfl
      | networkError => rfl
    | notOk => cases remoteRes with
      | ok data => exact absurd rfl (hremote data)
      | okBadJson => rfl
      | notOk => rfl
      | networkError => rfl
    | networkError => cases remoteRes with
      | ok data => exact absurd rfl (hremote data)
      | okBadJson => rfl
      | notOk => rfl
      | networkError => rfl

/-- C5 witness: on a dev host, a non-OK local response followed by a
remote network error yields the empty mapping. -/
theorem c5_witness : loadNavData true .notOk .networkError = [] :=
  c5_loadNavData_empty_on_remote_failure true .notOk .networkError
    (fun data h => by cases h) (fun _ data h => by cases h)

/-- For a nonempty manifest with the nav container present, `init`
reduces to one `loadContentById` call on the id chosen from the URL by
the truthy property access. -/
theorem init_eq_load (k0 : String) (it : NavItem) (rest : NavData)
    (f : FetchResult) (d : Dom) (hc : d.navContainerPresent = true) :
    init ((k0, it) :: rest) f d = loadContentById
      (match d.urlId with
       | none => k0
       | some u => if ¬u = "" ∧ propAccessTruthy ((k0, it) :: rest) u = true
                   then u else k0)
      f { navData := (k0, it) :: rest, activeId := none, currentHtml := "", currentTitle := "" }
      (renderNav ((k0, it) :: rest) d) := by
  unfold init
  simp [hc, getIdFromUrl, renderNav]

def c6nav : NavData := [("a", ⟨"A", "a.html"⟩), ("", ⟨"Empty", "e.html"⟩)]

def c6dom : Dom := ⟨true, true, false, none, [], some "", [], 0⟩

def c6protoDom : Dom := ⟨true, true, false, none, [], some "constructor", [], 0⟩

/-- C6 counterexample, refuting both halves of the initialisation
sentence.  First: with the manifest containing the key `""` and the URL
carrying `id=` (present and equal to that key), the key is not
preselected — the empty string is falsy in JS, so the code falls back
to the first key `"a"`.  Second: with `id=constructor`, which is not a
key of the manifest, there is no fallback to the first key either — the
property access `navData["constructor"]` is truthy via the inherited
`Object.prototype` property, `loadContentById` is entered with it and
throws on the undefined `uri`, and `activeId` stays null. -/
theorem c6_counterexample :
    getIdFromUrl c6dom = some "" ∧
    (c6nav.lookup "").isSome = true ∧
    (init c6nav (.ok "x") c6dom).1.activeId = some "a" ∧
    (init c6nav (.ok "x") c6dom).1.activeId ≠ some "" ∧
    getIdFromUrl c6protoDom = some "constructor" ∧
    (demoNav.lookup "constructor").isSome = false ∧
    (init demoNav (.ok "x") c6protoDom).1.activeId = none ∧
    (init demoNav (.ok "x") c6protoDom).1.activeId ≠ some "a" := by decide

/-- C6 (amended): after every selection of a known key (containers
present) the URL `id` parameter equals the key; at initialisation a
present, nonempty `id` parameter that is a key of the manifest is
preselected; an absent or empty `id`, or an unknown one that is not a
property name inherited from `Object.prototype`, falls back to the
manifest's first key; an unknown `id` that is such an inherited name
selects nothing and leaves `activeId` null. -/
theorem c6_url_roundtrip_amended :
    (∀ (s : AppState) (d : Dom) (id : String) (f : FetchResult),
        (s.navData.lookup id).isSome = true → d.mainContentPresent = true →
        (loadContentById id f s d).2.urlId = some id) ∧
    (∀ (nav : NavData) (d : Dom) (f : FetchResult) (u : String),
        d.navContainerPresent = true → d.mainContentPresent = true →
        getIdFromUrl d = some u → ¬u = "" → (nav.lookup u).isSome = true →
        (init nav f d).1.activeId = some u) ∧
    (∀ (k0 : String) (it : NavItem) (rest : NavData) (d : Dom) (f : FetchResult),
        d.navContainerPresent = true → d.mainContentPresent = true →
        (getIdFromUrl d = none ∨ getIdFromUrl d = some "" ∨
          ∀ u, getIdFromUrl d = some u →
            (((k0, it) :: rest : NavData).lookup u = none ∧
             protoProps.contains u = false)) →
        (init ((k0, it) :: rest) f d).1.activeId = some k0) ∧
    (∀ (k0 : String) (it : NavItem) (rest : NavData) (d : Dom) (f : FetchResult) (u : String),
        d.navContainerPresent = true →
        getIdFromUrl d = some u →
        ((k0, it) :: rest : NavData).lookup u = none →
        protoProps.contains u = true →
        (init ((k0, it) :: rest) f d).1.activeId = none) := by
  refine ⟨fun s d id f hmem hdom => loadContentById_urlId id f s d hmem hdom, ?_, ?_, ?_⟩
  · intro nav d f u hc hm hu hne hmem
    cases nav with
    | nil => simp [List.lookup] at hmem
    | cons e rest =>
      obtain ⟨k0, it⟩ := e
      rw [init_eq_load k0 it rest f d hc]
      rw [getIdFromUrl] at hu
      rw [hu]
      dsimp only
      rw [if_pos ⟨hne, by simp [propAccessTruthy, hmem]⟩]
      exact loadContentById_activeId u f _ _ hmem (by simpa [renderNav] using hm)
  · intro k0 it rest d f hc hm hsel
    rw [init_eq_load k0 it rest f d hc]
    have hhead : ((((k0, it) :: rest) : NavData).lookup k0).isSome = true := by
      simp [List.lookup]
    have hstep : (match d.urlId with
       | none => k0
       | some u => if ¬u = "" ∧ propAccessTruthy ((k0, it) :: rest) u = true
                   then u else k0) = k0 := by
      rcases hsel with h | h | h
      · rw [getIdFromUrl] at h; rw [h]
      · rw [getIdFromUrl] at h; rw [h]
        simp
      · cases hd : d.urlId with
        | none => rfl
        | some u =>
          obtain ⟨hlk, hct⟩ := h u (by rw [getIdFromUrl, hd])
          have hnotmem : u ∉ protoProps := by simpa using hct
          dsimp only
          simp [propAccessTruthy, hlk, hnotmem]
    rw [hstep]
    exact loadContentById_activeId k0 f _ _ hhead (by simpa [renderNav] using hm)
  · intro k0 it rest d f u hc hu hlk hct
    rw [init_eq_load k0 it rest f d hc]
    rw [getIdFromUrl] at hu
    rw [hu]
    dsimp only
    have hne : ¬u = "" := by
      intro h
      subst h
      exact absurd hct (by decide)
    have hmem : u ∈ protoProps := by simpa using hct
    rw [if_pos ⟨hne, by simp [propAccessTruthy, hlk, hmem]⟩]
    rw [loadContentById_unknown u f _ _ hlk]

def c6goodDom : Dom := ⟨true, true, false, none, [], some "b", [], 0⟩

/-- C6 witness: with the URL carrying `id=b` and `"b"` a key of a
concrete manifest, initialisation preselects `"b"`; selecting `"b"`
writes `b` back into the URL; and with the URL carrying
`id=constructor` over the same manifest, initialisation selects
nothing. -/
theorem c6_witness :
    (loadContentById "b" (.ok "x") demoState demoDom).2.urlId = some "b" ∧
    (init demoNav (.ok "x") c6goodDom).1.activeId = some "b" ∧
    (init demoNav (.ok "x") c6protoDom).1.activeId = none := by
  refine ⟨c6_url_roundtrip_amended.1 demoState demoDom "b" (.ok "x") (by decide) rfl,
    c6_url_roundtrip_amended.2.1 demoNav c6goodDom (.ok "x") "b" rfl rfl rfl
      (by decide) (by decide), ?_⟩
  exact c6_url_roundtrip_amended.2.2.2 "a" ⟨"A", "a.html"⟩ [("b", ⟨"B", "b.html"⟩)]
    c6protoDom (.ok "x") "constructor" rfl rfl (by decide) (by decide)

/-- C7: when the run syncs (no `--serve` flag) and the single manifest
fetch fails, the whole run fails: disk untouched (no manifest written,
no pages directory recreated, no page files), the server never spawned,
exit code 1. -/
theorem c7_manifest_fetch_failure_is_fatal
    (args : List String) (emsg : String) (parse : String → Option NavData)
    (pageFetch : String → FetchTextResult) (server : ServerResult) (fs : FsState)
    (hnoserve : args.contains "--serve" = false) :
    devMain args (.error emsg) parse pageFetch server fs
      = { fs := fs, serverSpawned := false, exitCode := 1 } := by
  have hmem : ¬("--serve" ∈ args) := by simpa using hnoserve
  unfold devMain syncResources
  simp [hmem]

/-- C7 witness: a concrete `--sync` run with a failed manifest fetch
leaves an empty disk empty, spawns nothing and exits 1. -/
theorem c7_witness :
    devMain ["--sync"] (.error "fetch failed") (fun _ => none) (fun _ => .error "x")
      (.exited 0) ⟨none, none⟩
      = { fs := ⟨none, none⟩, serverSpawned := false, exitCode := 1 } :=
  c7_manifest_fetch_failure_is_fatal ["--sync"] "fetch failed" (fun _ => none)
    (fun _ => .error "x") (.exited 0) ⟨none, none⟩ (by decide)

/-- The per-page loop of `syncResources` keeps exactly the successfully
fetched entries, in manifest order. -/
theorem syncPages_eq_filterMap (pageFetch : String → FetchTextResult)
    (nav : NavData) (acc : List (String × String)) :
    nav.foldl (fun acc e =>
      match pageFetch e.2.uri with
      | .ok content => acc ++ [(e.1 ++ ".html", content)]
      | .error _ => acc) acc
    = acc ++ nav.filterMap (fun e =>
      match pageFetch e.2.uri with
      | .ok content => some (e.1 ++ ".html", content)
      | .error _ => none) := by
  induction nav generalizing acc with
  | nil => simp
  | cons e rest ih =>
    cases h : pageFetch e.2.uri with
    | ok content => simp [List.foldl_cons, List.filterMap_cons, h, ih]
    | error msg => simp [List.foldl_cons, List.filterMap_cons, h, ih]

/-- C8: with the manifest fetched and parsed, no per-page failure is
fatal — `syncResources` returns without error, the recreated pages
directory holds exactly the successfully fetched entries (failed ones
are skipped while the loop continues), and a `--sync` run still exits
with code 0 and never spawns the server. -/
theorem c8_page_failures_logged_and_skipped
    (mtext : String) (nav : NavData) (parse : String → Option NavData)
    (pageFetch : String → FetchTextResult) (server : ServerResult) (fs : FsState)
    (hparse : parse mtext = some nav) :
    (syncResources (.ok mtext) parse pageFetch fs).2 = none ∧
    (syncResources (.ok mtext) parse pageFetch fs).1.pagesDir
      = some (nav.filterMap (fun e =>
          match pageFetch e.2.uri with
          | .ok content => some (e.1 ++ ".html", content)
          | .error _ => none)) ∧
    (devMain ["--sync"] (.ok mtext) parse pageFetch server fs).exitCode = 0 ∧
    (devMain ["--sync"] (.ok mtext) parse pageFetch server fs).serverSpawned = false ∧
    (devMain ["--sync"] (.ok mtext) parse pageFetch server fs).fs.pagesDir
      = some (nav.filterMap (fun e =>
          match pageFetch e.2.uri with
          | .ok content => some (e.1 ++ ".html", content)
          | .error _ => none)) := by
  have hsync : syncResources (.ok mtext) parse pageFetch fs
      = (⟨some mtext, some (nav.filterMap (fun e =>
          match pageFetch e.2.uri with
          | .ok content => some (e.1 ++ ".html", content)
          | .error _ => none))⟩, none) := by
    unfold syncResources
    dsimp only
    rw [hparse]
    dsimp only
    rw [syncPages_eq_filterMap]
    simp
  have hmain : devMain ["--sync"] (.ok mtext) parse pageFetch server fs
      = { fs := ⟨some mtext, some (nav.filterMap (fun e =>
            match pageFetch e.2.uri with
            | .ok content => some (e.1 ++ ".html", content)
            | .error _ => none))⟩,
          serverSpawned := false, exitCode := 0 } := by
    unfold devMain
    rw [hsync]
    rfl
  rw [hsync, hmain]
  exact ⟨rfl, rfl, rfl, rfl, rfl⟩

def c8nav : NavData := [("p1", ⟨"T", "https://x/p1.html"⟩)]

def c8parse : String → Option NavData :=
  fun t => if t == "manifest" then some c8nav else none

/-- C8 witness: a one-entry manifest whose page fetch fails — the pages
directory exists and is empty, the `--sync` run exits 0 without
spawning the server. -/
theorem c8_witness :
    (syncResources (.ok "manifest") c8parse (fun _ => .error "down") ⟨none, none⟩).2
      = none ∧
    (syncResources (.ok "manifest") c8parse (fun _ => .error "down") ⟨none, none⟩).1.pagesDir
      = some [] ∧
    (devMain ["--sync"] (.ok "manifest") c8parse (fun _ => .error "down")
        (.exited 0) ⟨none, none⟩).exitCode = 0 ∧
    (devMain ["--sync"] (.ok "manifest") c8parse (fun _ => .error "down")
        (.exited 0) ⟨none, none⟩).serverSpawned = false := by
  have h := c8_page_failures_logged_and_skipped "manifest" c8nav c8parse
    (fun _ => .error "down") (.exited 0) ⟨none, none⟩ (by decide)
  exact ⟨h.1, h.2.1, h.2.2.1, h.2.2.2.1⟩

/-- C9: any invocation whose argument list contains `--sync` never
spawns the static-file-server subprocess, whatever the fetch, parse and
disk outcomes. -/
theorem c9_sync_flag_never_spawns_server
    (args : List String) (manifestRes : FetchTextResult) (parse : String → Option NavData)
    (pageFetch : String → FetchTextResult) (server : ServerResult) (fs : FsState)
    (hsync : args.contains "--sync" = true) :
    (devMain args manifestRes parse pageFetch server fs).serverSpawned = false := by
  unfold devMain
  simp only [hsync, Bool.not_true]
  split
  · rfl
  · simp

/-- C9 witness: a concrete `--sync` invocation (with an extra ignored
argument) does not spawn the server. -/
theorem c9_witness :
    (devMain ["--verbose", "--sync"] (.ok "m") (fun _ => none) (fun _ => .error "x")
      (.spawnError "no file_server") ⟨none, none⟩).serverSpawned = false :=
  c9_sync_flag_never_spawns_server ["--verbose", "--sync"] (.ok "m") (fun _ => none)
    (fun _ => .error "x") (.spawnError "no file_server") ⟨none, none⟩ (by decide)

/-- C10: with both `--sync` and `--serve` present, the run does
nothing: the sync is skipped because `--serve` is present, the server
is skipped because `--sync` is present, the disk is untouched and the
run completes normally with exit code 0. -/
theorem c10_both_flags_do_nothing
    (args : List String) (manifestRes : FetchTextResult) (parse : String → Option NavData)
    (pageFetch : String → FetchTextResult) (server : ServerResult) (fs : FsState)
    (hsync : args.contains "--sync" = true)
    (hserve : args.contains "--serve" = true) :
    devMain args manifestRes parse pageFetch server fs
      = { fs := fs, serverSpawned := false, exitCode := 0 } := by
  have hmem1 : "--sync" ∈ args := by simpa using hsync
  have hmem2 : "--serve" ∈ args := by simpa using hserve
  unfold devMain
  simp [hmem1, hmem2]

/-- C10 witness: the concrete invocation `--sync --serve` returns with
the disk untouched, no server and exit code 0, even though both the
manifest fetch and the server would fail if attempted. -/
theorem c10_witness :
    devMain ["--sync", "--serve"] (.error "down") (fun _ => none) (fun _ => .error "x")
      (.spawnError "no file_server") ⟨some "old", some [("p1.html", "body")]⟩
      = { fs := ⟨some "old", some [("p1.html", "body")]⟩,
          serverSpawned := false, exitCode := 0 } :=
  c10_both_flags_do_nothing ["--sync", "--serve"] (.error "down") (fun _ => none)
    (fun _ => .error "x") (.spawnError "no file_server")
    ⟨some "old", some [("p1.html", "body")]⟩ (by decide) (by decide)
